import Mathlib

/-! STrace AntiDebugPlugin: entry / return callbacks and the substitute calls.

A shallow embedding of `src/C/AntiDebugPlugin/dllmain.cpp`.

* Memory is a total map from addresses to bytes; multi-byte values are
  little-endian (x64).
* The host services (`g_Apis.pTraceAccessMemory`, `g_Apis.pSetTlsData`,
  `g_Apis.pGetTlsData`, the `MachineState` view) and the NT kernel routines are
  not part of the plugin; they are modelled at their interface, and every call
  that matters is appended to an event log.
* `NTSTATUS` is a signed 32-bit integer (`Int`); 64-bit registers and slots are
  `Nat`, with conversions made explicit by `u64`.
-/

namespace STrace

/-! ## Memory -/

abbrev Byte := Fin 256

abbrev Mem := Nat → Byte

/-- Little-endian value of the `n` bytes at `a`. -/
def readLE (m : Mem) (a : Nat) : Nat → Nat
  | 0 => 0
  | n + 1 => (m a).val + 256 * readLE m (a + 1) n

/-- Byte number `i` (little-endian) of the value `v`. -/
def byteOf (v i : Nat) : Byte := ⟨(v / 256 ^ i) % 256, Nat.mod_lt _ (by decide)⟩

/-- Memory after the low `n` bytes of `v` have been copied to `a`. -/
def writeLE (m : Mem) (a n v : Nat) : Mem :=
  fun x => if a ≤ x ∧ x < a + n then byteOf v (x - a) else m x

/-! ## Events, world, machine state -/

/-- Calls made to the host and to the kernel, in program order. -/
inductive Event where
  | access (target size count : Nat) (isRead : Bool) (value : Nat) (ok : Bool) (irql : Nat)
  | KfRaiseIrql (newIrql oldIrql : Nat)
  | KeLowerIrql (newIrql : Nat)
  | ObQueryObjectAuditingByHandle (handle : Nat)
  | ObReferenceObjectByHandle (handle desiredAccess mode irql : Nat)
  | ObDereferenceObject (object : Nat)
  | ObCloseHandle (handle mode : Nat)
  deriving DecidableEq, Repr

/-- Slot identifiers, `enum TLS_SLOTS`. -/
inductive TLS_SLOTS where
  | PROCESS_INFO_CLASS
  | PROCESS_INFO_DATA
  | PROCESS_INFO_DATA_LEN
  | CONTEXT_THREAD_DATA
  | THREAD_INFO_HANDLE
  | THREAD_INFO_CLASS
  | THREAD_INFO_DATA
  | THREAD_INFO_DATA_LEN
  | CLOSE_RETVAL
  | CLOSE_OVERWRITE_RETVAL
  deriving DecidableEq, Repr

/-- Everything outside the callback that it reads or changes: memory, the
outcomes of the coming memory-patch accesses (head first), the slot store of the
calling thread, the interrupt priority level and the event log. -/
structure World where
  mem : Mem
  outcomes : Nat → Bool
  tls : TLS_SLOTS → Option Nat
  irql : Nat
  log : List Event

/-- Redirect targets registered with `ctx.redirect_syscall`. -/
inductive Substitute where
  | noop
  | NoopNtSetInformationThread
  deriving DecidableEq, Repr

/-- Modelled from the spec: the Argument/Register View (`MachineState` of
Interface.h): indexed argument read, return-value read/write and a redirect
operation. -/
structure MachineState where
  args : Nat → Nat
  retval : Nat
  redirect : Option Substitute

/-- Modelled from the spec: `ctx.read_argument(i)`. -/
def MachineState.read_argument (ctx : MachineState) (i : Nat) : Nat := ctx.args i

/-- Modelled from the spec: `ctx.read_return_value()`. -/
def MachineState.read_return_value (ctx : MachineState) : Nat := ctx.retval

/-- Modelled from the spec: `ctx.write_return_value(v)`. -/
def MachineState.write_return_value (ctx : MachineState) (v : Nat) : MachineState :=
  { ctx with retval := v }

/-- Modelled from the spec: `ctx.redirect_syscall(&f)`. -/
def MachineState.redirect_syscall (ctx : MachineState) (f : Substitute) : MachineState :=
  { ctx with redirect := some f }

/-- Modelled from the spec: call identifiers (`PROBE_IDS` of probedefs.h): the
five intercepted operations, and every other identifier. -/
inductive PROBE_IDS where
  | IdQueryInformationProcess
  | IdQueryInformationThread
  | IdGetContextThread
  | IdSetInformationThread
  | IdClose
  | other (id : Nat)
  deriving DecidableEq, Repr

/-! ## Host services -/

/-- Modelled from the spec: slot store `set(value, slotId)`, scoped to the
calling thread. -/
def pSetTlsData (w : World) (value : Nat) (slot : TLS_SLOTS) : World :=
  { w with tls := fun s => if s = slot then some value else w.tls s }

/-- Modelled from the spec: slot store `get(value, slotId) -> found`; `none` is
"not found". -/
def pGetTlsData (w : World) (slot : TLS_SLOTS) : Option Nat := w.tls slot

/-- Modelled from the spec: the Memory Patch Service
`access(buffer, targetAddress, size, count, isRead) -> success`. The outcome of
each access is taken from `w.outcomes`; a failed access leaves memory and the
local buffer unchanged. A successful read copies `size * count` bytes at
`target` into the low bytes of the local `buf`; a successful write copies the low
`size * count` bytes of `buf` to `target`. The bytes of one access are at
consecutive addresses (no wrap inside an access). Returns success, the local
buffer and the new world. -/
def pTraceAccessMemory (w : World) (buf target size count : Nat) (isRead : Bool) :
    Bool × Nat × World :=
  let n := size * count
  let ok := w.outcomes 0
  let rest : Nat → Bool := fun i => w.outcomes (i + 1)
  if ok then
    if isRead then
      let v := buf - buf % 256 ^ n + readLE w.mem target n
      (true, v, { w with outcomes := rest,
                         log := w.log ++ [Event.access target size count true v true w.irql] })
    else
      (true, buf, { w with mem := writeLE w.mem target n buf, outcomes := rest,
                           log := w.log ++ [Event.access target size count false buf true w.irql] })
  else
    (false, buf, { w with outcomes := rest,
                          log := w.log ++ [Event.access target size count isRead buf false w.irql] })

/-! ## Platform constants (Windows SDK / WDK values) -/

/-- Conversion of a signed status to a 64-bit unsigned register or slot value. -/
def u64 (s : Int) : Nat := (s % 18446744073709551616).toNat

/-- Low 32 bits of a register, read back as an `NTSTATUS`. -/
def asNTSTATUS (r : Nat) : Int :=
  if r % 4294967296 < 2147483648 then (r % 4294967296 : Nat) else ((r % 4294967296 : Nat) : Int) - 4294967296

def STATUS_SUCCESS : Int := 0
def STATUS_INFO_LENGTH_MISMATCH : Int := 0xC0000004 - 4294967296
def STATUS_ACCESS_VIOLATION : Int := 0xC0000005 - 4294967296
def STATUS_INVALID_HANDLE : Int := 0xC0000008 - 4294967296
def STATUS_HANDLE_NOT_CLOSABLE : Int := 0xC0000235 - 4294967296
def STATUS_PORT_NOT_SET : Int := 0xC0000353 - 4294967296

/-- The macro `NT_SUCCESS(status)`: `((NTSTATUS)(status)) >= 0`. -/
def NT_SUCCESS (s : Int) : Bool := decide (0 ≤ s)

def ProcessDebugPort : Nat := 7
def ProcessDebugObjectHandle : Nat := 30
def ProcessDebugFlags : Nat := 31
def ThreadHideFromDebugger : Nat := 17
def ThreadWow64Context : Nat := 29

def KernelMode : Nat := 0
def UserMode : Nat := 1
def THREAD_SET_INFORMATION : Nat := 0x20
def OBJ_PROTECT_CLOSE : Nat := 0x1
def FLG_ENABLE_CLOSE_EXCEPTIONS : Nat := 0x00400000
def TRUE : Nat := 1

/-- Field offsets `offsetof(WOW64_CONTEXT, DrN)`. -/
def WOW64_CONTEXT_Dr0 : Nat := 4
def WOW64_CONTEXT_Dr1 : Nat := 8
def WOW64_CONTEXT_Dr2 : Nat := 12
def WOW64_CONTEXT_Dr3 : Nat := 16
def WOW64_CONTEXT_Dr6 : Nat := 20
def WOW64_CONTEXT_Dr7 : Nat := 24

/-- Field offsets `offsetof(CONTEXT, ...)` of the x64 `CONTEXT` (size 0x4d0):
the debug registers follow `EFlags` (0x44); after `VectorRegister[26]`
(0x300 .. 0x49f) come `VectorControl` (0x4a0), `DebugControl` (0x4a8) and the
four last-branch / last-exception fields. -/
def CONTEXT_Dr0 : Nat := 0x48
def CONTEXT_Dr1 : Nat := 0x50
def CONTEXT_Dr2 : Nat := 0x58
def CONTEXT_Dr3 : Nat := 0x60
def CONTEXT_Dr6 : Nat := 0x68
def CONTEXT_Dr7 : Nat := 0x70
def CONTEXT_LastBranchToRip : Nat := 0x4b0
def CONTEXT_LastBranchFromRip : Nat := 0x4b8
def CONTEXT_LastExceptionToRip : Nat := 0x4c0
def CONTEXT_LastExceptionFromRip : Nat := 0x4c8

/-- Addition of `uint64_t` values. -/
def add64 (a b : Nat) : Nat := (a + b) % 18446744073709551616

/-! ## `StpCallbackReturn` -/

/-- The `IdQueryInformationProcess` case of `StpCallbackReturn`. -/
def returnQueryInformationProcess (ctx : MachineState) (w : World) : MachineState × World :=
  match pGetTlsData w .PROCESS_INFO_CLASS, pGetTlsData w .PROCESS_INFO_DATA_LEN,
        pGetTlsData w .PROCESS_INFO_DATA with
  | some processInfoClass, some pProcessInfoLen, some pProcessInfo =>
    if pProcessInfo ≠ 0 then
      -- backup length (it can be null, in which case, don't read it)
      let bk : Nat × World :=
        if pProcessInfoLen ≠ 0 then
          ((pTraceAccessMemory w 0 pProcessInfoLen 4 1 true).2.1,
           (pTraceAccessMemory w 0 pProcessInfoLen 4 1 true).2.2)
        else (0, w)
      let origProcessInfoLen := bk.1
      let sw : MachineState × World :=
        if processInfoClass = ProcessDebugPort then
          (ctx, (pTraceAccessMemory bk.2 0 pProcessInfo 8 1 false).2.2)
        else if processInfoClass = ProcessDebugFlags then
          (ctx, (pTraceAccessMemory bk.2 1 pProcessInfo 4 1 false).2.2)
        else if processInfoClass = ProcessDebugObjectHandle then
          if ctx.read_return_value = u64 STATUS_SUCCESS then
            (ctx.write_return_value (u64 STATUS_PORT_NOT_SET),
             (pTraceAccessMemory bk.2 0 pProcessInfo 8 1 false).2.2)
          else (ctx, bk.2)
        else (ctx, bk.2)
      -- reset length
      if pProcessInfoLen ≠ 0 then
        (sw.1, (pTraceAccessMemory sw.2 origProcessInfoLen pProcessInfoLen 4 1 false).2.2)
      else sw
    else (ctx, w)
  | _, _, _ => (ctx, w)

/-- The `IdQueryInformationThread` case of `StpCallbackReturn`. Every debug
register write copies `sizeof(uint64_t)` = 8 bytes. -/
def returnQueryInformationThread (ctx : MachineState) (w : World) : MachineState × World :=
  match pGetTlsData w .THREAD_INFO_CLASS, pGetTlsData w .THREAD_INFO_DATA_LEN,
        pGetTlsData w .THREAD_INFO_DATA with
  | some threadInfoClass, some pThreadInfoLen, some pThreadInfo =>
    if pThreadInfo ≠ 0 then
      -- backup length (it can be null, in which case, don't read it)
      let bk : Nat × World :=
        if pThreadInfoLen ≠ 0 then
          ((pTraceAccessMemory w 0 pThreadInfoLen 4 1 true).2.1,
           (pTraceAccessMemory w 0 pThreadInfoLen 4 1 true).2.2)
        else (0, w)
      let origThreadInfoLen := bk.1
      let sw : World :=
        if threadInfoClass = ThreadWow64Context then
          let w1 := (pTraceAccessMemory bk.2 0 (add64 pThreadInfo WOW64_CONTEXT_Dr0) 8 1 false).2.2
          let w2 := (pTraceAccessMemory w1 0 (add64 pThreadInfo WOW64_CONTEXT_Dr1) 8 1 false).2.2
          let w3 := (pTraceAccessMemory w2 0 (add64 pThreadInfo WOW64_CONTEXT_Dr2) 8 1 false).2.2
          let w4 := (pTraceAccessMemory w3 0 (add64 pThreadInfo WOW64_CONTEXT_Dr3) 8 1 false).2.2
          let w5 := (pTraceAccessMemory w4 0 (add64 pThreadInfo WOW64_CONTEXT_Dr6) 8 1 false).2.2
          (pTraceAccessMemory w5 0 (add64 pThreadInfo WOW64_CONTEXT_Dr7) 8 1 false).2.2
        else if threadInfoClass = ThreadHideFromDebugger then
          (pTraceAccessMemory bk.2 TRUE pThreadInfo 1 1 false).2.2
        else bk.2
      -- reset length
      if pThreadInfoLen ≠ 0 then
        (ctx, (pTraceAccessMemory sw origThreadInfoLen pThreadInfoLen 4 1 false).2.2)
      else (ctx, sw)
    else (ctx, w)
  | _, _, _ => (ctx, w)

/-- The `IdGetContextThread` case of `StpCallbackReturn`. -/
def returnGetContextThread (ctx : MachineState) (w : World) : MachineState × World :=
  match pGetTlsData w .CONTEXT_THREAD_DATA with
  | some pContextThreadData =>
    let w1 := (pTraceAccessMemory w 0 (add64 pContextThreadData CONTEXT_Dr0) 8 1 false).2.2
    let w2 := (pTraceAccessMemory w1 0 (add64 pContextThreadData CONTEXT_Dr1) 8 1 false).2.2
    let w3 := (pTraceAccessMemory w2 0 (add64 pContextThreadData CONTEXT_Dr2) 8 1 false).2.2
    let w4 := (pTraceAccessMemory w3 0 (add64 pContextThreadData CONTEXT_Dr3) 8 1 false).2.2
    let w5 := (pTraceAccessMemory w4 0 (add64 pContextThreadData CONTEXT_Dr6) 8 1 false).2.2
    let w6 := (pTraceAccessMemory w5 0 (add64 pContextThreadData CONTEXT_Dr7) 8 1 false).2.2
    let w7 := (pTraceAccessMemory w6 0 (add64 pContextThreadData CONTEXT_LastBranchToRip) 8 1 false).2.2
    let w8 := (pTraceAccessMemory w7 0 (add64 pContextThreadData CONTEXT_LastBranchFromRip) 8 1 false).2.2
    let w9 := (pTraceAccessMemory w8 0 (add64 pContextThreadData CONTEXT_LastExceptionToRip) 8 1 false).2.2
    (ctx, (pTraceAccessMemory w9 0 (add64 pContextThreadData CONTEXT_LastExceptionFromRip) 8 1 false).2.2)
  | none => (ctx, w)

/-- The `IdClose` case of `StpCallbackReturn`. -/
def returnClose (ctx : MachineState) (w : World) : MachineState × World :=
  match pGetTlsData w .CLOSE_OVERWRITE_RETVAL, pGetTlsData w .CLOSE_RETVAL with
  | some ovrwRetVal, some newRetVal =>
    if ovrwRetVal ≠ 0 then (ctx.write_return_value newRetVal, w) else (ctx, w)
  | _, _ => (ctx, w)

/-- `StpCallbackReturn(pService, probeId, ctx, callerinfo)`; `pService` and
`callerinfo` are not used by the function. -/
def StpCallbackReturn (probeId : PROBE_IDS) (ctx : MachineState) (w : World) :
    MachineState × World :=
  match probeId with
  | .IdQueryInformationProcess => returnQueryInformationProcess ctx w
  | .IdQueryInformationThread => returnQueryInformationThread ctx w
  | .IdGetContextThread => returnGetContextThread ctx w
  | .IdClose => returnClose ctx w
  | _ => (ctx, w)

/-! ## Kernel routines -/

/-- Outputs of `ObReferenceObjectByHandle`: the status, the referenced object
(`*Object`, null when none) and `HandleInformation->HandleAttributes`. -/
structure ObRef where
  status : Int
  object : Nat
  HandleAttributes : Nat

/-- The kernel as the plugin sees it during one callback: what each routine
answers. -/
structure Kernel where
  ExGetPreviousMode : Nat
  ObQueryObjectAuditingByHandle : Nat → Int
  PsGetProcessDebugPort : Nat
  RtlGetNtGlobalFlags : Nat
  ObReferenceObjectByHandle : Nat → Nat → Nat → ObRef
  ObCloseHandle : Nat → Nat → Int

/-- `KfRaiseIrql(NewIrql)`: returns the previous level. -/
def KfRaiseIrql (w : World) (newIrql : Nat) : Nat × World :=
  (w.irql, { w with irql := newIrql, log := w.log ++ [Event.KfRaiseIrql newIrql w.irql] })

/-- `KeLowerIrql(NewIrql)`. -/
def KeLowerIrql (w : World) (newIrql : Nat) : World :=
  { w with irql := newIrql, log := w.log ++ [Event.KeLowerIrql newIrql] }

/-- `ObQueryObjectAuditingByHandle(Handle, &AuditOnClose)`. -/
def ObQueryObjectAuditingByHandle (k : Kernel) (w : World) (handle : Nat) : Int × World :=
  (k.ObQueryObjectAuditingByHandle handle,
   { w with log := w.log ++ [Event.ObQueryObjectAuditingByHandle handle] })

/-- `ObReferenceObjectByHandle(Handle, DesiredAccess, NULL, AccessMode, &Object, &HandleInfo)`. -/
def ObReferenceObjectByHandle (k : Kernel) (w : World) (handle desiredAccess mode : Nat) :
    ObRef × World :=
  (k.ObReferenceObjectByHandle handle desiredAccess mode,
   { w with log := w.log ++ [Event.ObReferenceObjectByHandle handle desiredAccess mode w.irql] })

/-- `ObDereferenceObject(Object)`. -/
def ObDereferenceObject (w : World) (object : Nat) : World :=
  { w with log := w.log ++ [Event.ObDereferenceObject object] }

/-- `ObCloseHandle(Handle, PreviousMode)`. -/
def ObCloseHandle (k : Kernel) (w : World) (handle mode : Nat) : Int × World :=
  (k.ObCloseHandle handle mode, { w with log := w.log ++ [Event.ObCloseHandle handle mode] })

/-! ## Substitute A -/

/-- `NoopNtSetInformationThread`. `DTRACE_IRQL` (Interface.h) is a parameter.
The local `ProbeAlignment` is assigned and never read. The first component of
`probe` is the status of an early return, if one happened. -/
def NoopNtSetInformationThread (DTRACE_IRQL : Nat) (k : Kernel) (w : World)
    (ThreadHandle ThreadInformationClass ThreadInformation ThreadInformationLength : Nat) :
    Int × World :=
  let PreviousMode := k.ExGetPreviousMode
  let probe : Option Int × World :=
    if PreviousMode ≠ KernelMode then
      -- mimick ProbeForRead
      if ThreadInformationLength ≠ 0 then
        let r := KfRaiseIrql w DTRACE_IRQL
        let oldIrql := r.1
        let a := pTraceAccessMemory r.2 0 ThreadInformation 1 1 true
        if a.1 = false then
          (some STATUS_ACCESS_VIOLATION, KeLowerIrql a.2.2 oldIrql)
        else (none, KeLowerIrql a.2.2 oldIrql)
      else (none, w)
    else (none, w)
  match probe.1 with
  | some status => (status, probe.2)
  | none =>
    if ThreadInformationClass = ThreadHideFromDebugger then
      if ThreadInformationLength ≠ 0 then (STATUS_INFO_LENGTH_MISMATCH, probe.2)
      else
        -- check if handle is valid
        let r := ObReferenceObjectByHandle k probe.2 ThreadHandle THREAD_SET_INFORMATION PreviousMode
        if NT_SUCCESS r.1.status = false then (r.1.status, r.2)
        else (STATUS_SUCCESS, r.2)
    else (STATUS_SUCCESS, probe.2)

/-! ## `StpCallbackEntry` -/

/-- The `IdClose` case of `StpCallbackEntry`. `BOOLEAN` is `UCHAR`: the value
assigned to `GlobalFlgExceptions` is reduced modulo 256. -/
def entryClose (k : Kernel) (ctx : MachineState) (w : World) : MachineState × World :=
  let Handle := ctx.read_argument 0
  let PreviousMode := k.ExGetPreviousMode
  let q := ObQueryObjectAuditingByHandle k w Handle
  let ObStatus := q.1
  if ObStatus ≠ STATUS_INVALID_HANDLE then
    -- handle isn't invalid, check some additional properties
    let BeingDebugged : Bool := decide (k.PsGetProcessDebugPort ≠ 0)
    let GlobalFlgExceptions : Nat := (k.RtlGetNtGlobalFlags &&& FLG_ENABLE_CLOSE_EXCEPTIONS) % 256
    let look : Int × Nat × World :=
      if BeingDebugged = true ∨ GlobalFlgExceptions ≠ 0 then
        let r := ObReferenceObjectByHandle k q.2 Handle 0 PreviousMode
        (r.1.status, r.1.HandleAttributes,
         if r.1.object ≠ 0 then ObDereferenceObject r.2 r.1.object else r.2)
      else (ObStatus, 0, q.2)
    -- If debugged, or handle not closeable, avoid exception and give noncloseable back
    if (BeingDebugged = true ∨ GlobalFlgExceptions ≠ 0) ∧ NT_SUCCESS look.1 = true
        ∧ look.2.1 &&& OBJ_PROTECT_CLOSE ≠ 0 then
      (ctx.redirect_syscall .noop,
       pSetTlsData (pSetTlsData look.2.2 (u64 STATUS_HANDLE_NOT_CLOSABLE) .CLOSE_RETVAL)
         TRUE .CLOSE_OVERWRITE_RETVAL)
    else
      -- really close, it's ok won't raise
      let c := ObCloseHandle k look.2.2 Handle PreviousMode
      (ctx.redirect_syscall .noop,
       pSetTlsData (pSetTlsData c.2 (u64 c.1) .CLOSE_RETVAL) TRUE .CLOSE_OVERWRITE_RETVAL)
  else
    (ctx.redirect_syscall .noop,
     pSetTlsData (pSetTlsData q.2 (u64 STATUS_INVALID_HANDLE) .CLOSE_RETVAL)
       TRUE .CLOSE_OVERWRITE_RETVAL)

/-- `StpCallbackEntry(pService, probeId, ctx, callerinfo)`; `pService` and
`callerinfo` are not used by the function. -/
def StpCallbackEntry (k : Kernel) (probeId : PROBE_IDS) (ctx : MachineState) (w : World) :
    MachineState × World :=
  match probeId with
  | .IdQueryInformationProcess =>
    let processInfoClass := ctx.read_argument 1
    let pProcessInfo := ctx.read_argument 2
    let pProcessInfoLen := ctx.read_argument 4
    (ctx, pSetTlsData (pSetTlsData (pSetTlsData w processInfoClass .PROCESS_INFO_CLASS)
      pProcessInfo .PROCESS_INFO_DATA) pProcessInfoLen .PROCESS_INFO_DATA_LEN)
  | .IdGetContextThread =>
    let pContextThreadData := ctx.read_argument 1
    (ctx, pSetTlsData w pContextThreadData .CONTEXT_THREAD_DATA)
  | .IdQueryInformationThread =>
    let threadInfoClass := ctx.read_argument 1
    let pThreadInfo := ctx.read_argument 2
    let pThreadInfoLen := ctx.read_argument 3
    (ctx, pSetTlsData (pSetTlsData (pSetTlsData w threadInfoClass .THREAD_INFO_CLASS)
      pThreadInfo .THREAD_INFO_DATA) pThreadInfoLen .THREAD_INFO_DATA_LEN)
  | .IdSetInformationThread =>
    let threadInfoClass := ctx.read_argument 1
    if threadInfoClass = ThreadHideFromDebugger then
      -- just do nothing, pretend the call happened ok
      (ctx.redirect_syscall .NoopNtSetInformationThread, w)
    else (ctx, w)
  | .IdClose => entryClose k ctx w
  | _ => (ctx, w)

/-- The substitute `noop`: no change to the return value. -/
def noop (ctx : MachineState) : MachineState := ctx

/-! ## Assumptions and concrete inputs -/

/-- Every access of the memory-patch service from now on succeeds. -/
def AllOk (w : World) : Prop := ∀ n, w.outcomes n = true

/-- A world with the given memory and slots in which every access succeeds. -/
def worldOf (mem : Mem) (tls : TLS_SLOTS → Option Nat) : World :=
  { mem := mem, outcomes := fun _ => true, tls := tls, irql := 0, log := [] }

/-- A machine state with all arguments and the return value zero. -/
def ctxZero : MachineState := { args := fun _ => 0, retval := 0, redirect := none }

/-- Slots after the entry of query-process-information(class, P, L). -/
def processSlots (cls P L : Nat) : TLS_SLOTS → Option Nat
  | .PROCESS_INFO_CLASS => some cls
  | .PROCESS_INFO_DATA => some P
  | .PROCESS_INFO_DATA_LEN => some L
  | _ => none

/-- Slots after the entry of query-thread-information(class, P, L). -/
def threadSlots (cls P L : Nat) : TLS_SLOTS → Option Nat
  | .THREAD_INFO_CLASS => some cls
  | .THREAD_INFO_DATA => some P
  | .THREAD_INFO_DATA_LEN => some L
  | _ => none

/-- Memory after a real debug-port query: a port value in the 8 bytes at
0x1000 and the length 8 in the 4 bytes at 0x2000. -/
def memScenarioA : Mem :=
  fun x => if 0x1000 ≤ x ∧ x < 0x1008 then 0xFF else if x = 0x2000 then 8 else 0

/-- Scenario A: class debug-port, P = 0x1000, L = 0x2000. -/
def worldScenarioA : World := worldOf memScenarioA (processSlots ProcessDebugPort 0x1000 0x2000)

/-- Memory after a real query whose buffer and length pointers are both
0x1000: the length (8, written last) is what the 4 bytes at 0x1000 hold. -/
def memAliased : Mem := fun x => if x = 0x1000 then 8 else 0

/-- Debug-port query with P = L = 0x1000. -/
def worldAliasedPort : World := worldOf memAliased (processSlots ProcessDebugPort 0x1000 0x1000)

/-- Hide-from-debugger query with P = L = 0x1000; the byte at P is 8. -/
def worldAliasedHide : World :=
  worldOf memAliased (threadSlots ThreadHideFromDebugger 0x1000 0x1000)

/-- Hide-from-debugger query with P = 0x1000 and L = 0x2000. -/
def worldHide : World := worldOf memScenarioA (threadSlots ThreadHideFromDebugger 0x1000 0x2000)

/-- A process query whose stored buffer pointer is null while the length pointer
is not. -/
def worldNullBuffer : World := worldOf memScenarioA (processSlots ProcessDebugPort 0 0x2000)

/-- A thread query whose length-pointer slot was never written. -/
def worldMissingSlot : World :=
  worldOf memScenarioA (fun s => if s = .THREAD_INFO_DATA_LEN then none
    else threadSlots ThreadHideFromDebugger 0x1000 0x2000 s)

/-- A world with empty memory and no slot written in which every access
fails (nothing is mapped). -/
def worldFaulting : World :=
  { mem := fun _ => 0, outcomes := fun _ => false, tls := fun _ => none, irql := 0, log := [] }

/-- A world with empty memory and no slot written in which every access
succeeds. -/
def worldIdle : World := worldOf (fun _ => 0) (fun _ => none)

/-- A kernel answering for a user-mode caller that is not debugged, with no
global flag set: every handle is valid, can be referenced (no attribute set)
and closes with success. -/
def kernelUser : Kernel :=
  { ExGetPreviousMode := UserMode
    ObQueryObjectAuditingByHandle := fun _ => STATUS_SUCCESS
    PsGetProcessDebugPort := 0
    RtlGetNtGlobalFlags := 0
    ObReferenceObjectByHandle := fun _ _ _ =>
      { status := STATUS_SUCCESS, object := 0xFFFF800000001000, HandleAttributes := 0 }
    ObCloseHandle := fun _ _ => STATUS_SUCCESS }

/-- The same kernel for a kernel-mode caller. -/
def kernelKernelMode : Kernel := { kernelUser with ExGetPreviousMode := KernelMode }

/-- A kernel for which the auditing query reports every handle invalid. -/
def kernelInvalidHandle : Kernel :=
  { kernelUser with ObQueryObjectAuditingByHandle := fun _ => STATUS_INVALID_HANDLE,
                    ObCloseHandle := fun _ _ => STATUS_INVALID_HANDLE }

/-- A kernel for a user-mode caller that is not debugged while the global flag
FLG_ENABLE_CLOSE_EXCEPTIONS is set; every handle is valid and protected from
close, and closing it answers STATUS_HANDLE_NOT_CLOSABLE. -/
def kernelCloseExceptions : Kernel :=
  { ExGetPreviousMode := UserMode
    ObQueryObjectAuditingByHandle := fun _ => STATUS_SUCCESS
    PsGetProcessDebugPort := 0
    RtlGetNtGlobalFlags := FLG_ENABLE_CLOSE_EXCEPTIONS
    ObReferenceObjectByHandle := fun _ _ _ =>
      { status := STATUS_SUCCESS, object := 0xFFFF800000001000,
        HandleAttributes := OBJ_PROTECT_CLOSE }
    ObCloseHandle := fun _ _ => STATUS_HANDLE_NOT_CLOSABLE }

/-- A machine state whose argument 0 is the handle 0x44. -/
def ctxHandle : MachineState := { args := fun _ => 0x44, retval := 0, redirect := none }

/-- A world at interrupt level 2 in which the coming access fails. -/
def worldProbeFails : World := { worldFaulting with irql := 2 }

/-- Memory after a real Wow64-context query: a WOW64_CONTEXT at 0x1000 whose
debug registers (bytes 0x1004 .. 0x101b) are set and whose
FloatSave.ControlWord (the 4 bytes at 0x101c) is 0x027F. -/
def memWow64 : Mem :=
  fun x => if 0x1004 ≤ x ∧ x < 0x101c then 0x11
    else if x = 0x101c then 0x7F else if x = 0x101d then 0x02 else 0

/-- Wow64-context query with P = 0x1000 and a null length pointer. -/
def worldWow64 : World := worldOf memWow64 (threadSlots ThreadWow64Context 0x1000 0)

theorem readLE_lt (m : Mem) : ∀ (n a : Nat), readLE m a n < 256 ^ n := by
  intro n
  induction n with
  | zero => intro a; simp [readLE]
  | succ n ih =>
    intro a
    have h1 := ih (a + 1)
    have h2 := (m a).isLt
    simp only [readLE, pow_succ]
    omega

theorem byteOf_readLE (m : Mem) : ∀ (n a k : Nat), k < n → byteOf (readLE m a n) k = m (a + k) := by
  intro n
  induction n with
  | zero => intro a k hk; omega
  | succ n ih =>
    intro a k hk
    have hb := (m a).isLt
    cases k with
    | zero =>
      apply Fin.ext
      simp only [byteOf, readLE, pow_zero, Nat.div_one, Nat.add_zero]
      omega
    | succ k =>
      have h := ih (a + 1) k (by omega)
      have hdiv : ((m a).val + 256 * readLE m (a + 1) n) / 256 ^ (k + 1)
          = readLE m (a + 1) n / 256 ^ k := by
        rw [pow_succ, Nat.mul_comm (256 ^ k) 256, ← Nat.div_div_eq_div_mul]
        congr 1
        omega
      have h3 : a + (k + 1) = a + 1 + k := by omega
      rw [h3, ← h]
      apply Fin.ext
      simp only [byteOf, readLE, hdiv]

theorem readLE_congr (m1 m2 : Mem) : ∀ (n a : Nat),
    (∀ k, k < n → m1 (a + k) = m2 (a + k)) → readLE m1 a n = readLE m2 a n := by
  intro n
  induction n with
  | zero => intro a _; rfl
  | succ n ih =>
    intro a h
    have h0 := h 0 (by omega)
    have h1 := ih (a + 1) (fun k hk => by
      have := h (k + 1) (by omega)
      rw [show a + 1 + k = a + (k + 1) by omega]
      exact this)
    simp only [readLE, h1]
    simp only [Nat.add_zero] at h0
    rw [h0]

theorem readLE_of_bytes (m : Mem) : ∀ (n a v : Nat),
    (∀ k, k < n → m (a + k) = byteOf v k) → readLE m a n = v % 256 ^ n := by
  intro n
  induction n with
  | zero => intro a v _; simp [readLE, Nat.mod_one]
  | succ n ih =>
    intro a v h
    have h0 := h 0 (by omega)
    have h1 := ih (a + 1) (v / 256) (fun k hk => by
      have := h (k + 1) (by omega)
      rw [show a + 1 + k = a + (k + 1) by omega, this]
      apply Fin.ext
      simp only [byteOf]
      rw [Nat.div_div_eq_div_mul, pow_succ, Nat.mul_comm (256 ^ k) 256])
    simp only [Nat.add_zero] at h0
    simp only [readLE, h1, h0, byteOf, pow_zero, Nat.div_one]
    rw [pow_succ, Nat.mul_comm (256 ^ n) 256, Nat.mod_mul]

theorem writeLE_in (m : Mem) (a n v x : Nat) (h1 : a ≤ x) (h2 : x < a + n) :
    writeLE m a n v x = byteOf v (x - a) := by
  simp [writeLE, h1, h2]

theorem writeLE_out (m : Mem) (a n v x : Nat) (h : x < a ∨ a + n ≤ x) :
    writeLE m a n v x = m x := by
  have : ¬ (a ≤ x ∧ x < a + n) := by omega
  simp [writeLE, this]

theorem readLE_writeLE_same (m : Mem) (a n v : Nat) :
    readLE (writeLE m a n v) a n = v % 256 ^ n := by
  apply readLE_of_bytes
  intro k hk
  rw [writeLE_in m a n v (a + k) (by omega) (by omega)]
  congr 1
  omega

theorem access_allOk (w : World) (buf t s c : Nat) (r : Bool) (h : AllOk w) :
    AllOk (pTraceAccessMemory w buf t s c r).2.2 := by
  intro n
  have h0 := h 0
  have h1 := h (n + 1)
  unfold pTraceAccessMemory
  cases r <;> simp [h0, h1]

theorem access_tls (w : World) (buf t s c : Nat) (r : Bool) :
    (pTraceAccessMemory w buf t s c r).2.2.tls = w.tls := by
  unfold pTraceAccessMemory
  cases r <;> cases w.outcomes 0 <;> simp

theorem access_irql (w : World) (buf t s c : Nat) (r : Bool) :
    (pTraceAccessMemory w buf t s c r).2.2.irql = w.irql := by
  unfold pTraceAccessMemory
  cases r <;> cases w.outcomes 0 <;> simp

theorem write_mem (w : World) (buf t s c : Nat) (h : AllOk w) :
    (pTraceAccessMemory w buf t s c false).2.2.mem = writeLE w.mem t (s * c) buf := by
  have h0 := h 0
  simp [pTraceAccessMemory, h0]

theorem read_mem (w : World) (buf t s c : Nat) :
    (pTraceAccessMemory w buf t s c true).2.2.mem = w.mem := by
  unfold pTraceAccessMemory
  cases w.outcomes 0 <;> simp

theorem read_val (w : World) (t s c : Nat) (h : AllOk w) :
    (pTraceAccessMemory w 0 t s c true).2.1 = readLE w.mem t (s * c) := by
  have h0 := h 0
  simp [pTraceAccessMemory, h0]

/-- With a non-null length pointer and successful accesses, the process-query
return handler ends with the restore of the cached length. -/
theorem returnProcess_mem (ctx : MachineState) (w : World) (cls P L : Nat)
    (hc : w.tls .PROCESS_INFO_CLASS = some cls) (hl : w.tls .PROCESS_INFO_DATA_LEN = some L)
    (hp : w.tls .PROCESS_INFO_DATA = some P) (hP : P ≠ 0) (hL : L ≠ 0) (hok : AllOk w) :
    ∃ m : Mem, (StpCallbackReturn .IdQueryInformationProcess ctx w).2.mem
      = writeLE m L 4 (readLE w.mem L 4) := by
  have hr := access_allOk w 0 L 4 1 true hok
  have hv := read_val w L 4 1 hok
  simp only [StpCallbackReturn, returnQueryInformationProcess, pGetTlsData, hc, hl, hp]
  simp only [hP, hL, ne_eq, not_false_eq_true, if_true, hv]
  split_ifs <;>
    exact ⟨_, write_mem _ _ _ _ _ (by repeat (first | exact hr | apply access_allOk))⟩

/-- With a non-null length pointer and successful accesses, the thread-query
return handler ends with the restore of the cached length. -/
theorem returnThread_mem (ctx : MachineState) (w : World) (cls P L : Nat)
    (hc : w.tls .THREAD_INFO_CLASS = some cls) (hl : w.tls .THREAD_INFO_DATA_LEN = some L)
    (hp : w.tls .THREAD_INFO_DATA = some P) (hP : P ≠ 0) (hL : L ≠ 0) (hok : AllOk w) :
    ∃ m : Mem, (StpCallbackReturn .IdQueryInformationThread ctx w).2.mem
      = writeLE m L 4 (readLE w.mem L 4) := by
  have hr := access_allOk w 0 L 4 1 true hok
  have hv := read_val w L 4 1 hok
  simp only [StpCallbackReturn, returnQueryInformationThread, pGetTlsData, hc, hl, hp]
  simp only [hP, hL, ne_eq, not_false_eq_true, if_true, hv]
  split_ifs <;>
    exact ⟨_, write_mem _ _ _ _ _ (by repeat (first | exact hr | apply access_allOk))⟩

/-- C1. Length round trip: for the return handler of query-process-information
and of query-thread-information, for every memory state, every info-class, every
non-null buffer pointer `P` and non-null length pointer `L` found in the slots
(whatever their overlap), when every access of the memory-patch service succeeds,
the 32-bit value at `L` after the handler equals the 32-bit value at `L` before
it. -/
theorem length_round_trip (ctx : MachineState) (w : World) (cls P L : Nat)
    (hP : P ≠ 0) (hL : L ≠ 0) (hok : AllOk w) :
    (w.tls .PROCESS_INFO_CLASS = some cls → w.tls .PROCESS_INFO_DATA_LEN = some L →
      w.tls .PROCESS_INFO_DATA = some P →
      readLE (StpCallbackReturn .IdQueryInformationProcess ctx w).2.mem L 4 = readLE w.mem L 4) ∧
    (w.tls .THREAD_INFO_CLASS = some cls → w.tls .THREAD_INFO_DATA_LEN = some L →
      w.tls .THREAD_INFO_DATA = some P →
      readLE (StpCallbackReturn .IdQueryInformationThread ctx w).2.mem L 4 = readLE w.mem L 4) := by
  have hlt := readLE_lt w.mem 4 L
  constructor
  · intro hc hl hp
    obtain ⟨m, hm⟩ := returnProcess_mem ctx w cls P L hc hl hp hP hL hok
    rw [hm, readLE_writeLE_same, Nat.mod_eq_of_lt hlt]
  · intro hc hl hp
    obtain ⟨m, hm⟩ := returnThread_mem ctx w cls P L hc hl hp hP hL hok
    rw [hm, readLE_writeLE_same, Nat.mod_eq_of_lt hlt]

/-- Witness of C1: buffer and length pointer both 0x1000, for the process query (class
ProcessDebugPort) and the thread query (class ThreadHideFromDebugger). -/
theorem length_round_trip_witness :
    readLE (StpCallbackReturn .IdQueryInformationProcess ctxZero worldAliasedPort).2.mem 0x1000 4
      = readLE worldAliasedPort.mem 0x1000 4 ∧
    readLE (StpCallbackReturn .IdQueryInformationThread ctxZero worldAliasedHide).2.mem 0x1000 4
      = readLE worldAliasedHide.mem 0x1000 4 :=
  ⟨(length_round_trip ctxZero worldAliasedPort ProcessDebugPort 0x1000 0x1000
      (by decide) (by decide) (fun _ => rfl)).1 rfl rfl rfl,
   (length_round_trip ctxZero worldAliasedHide ThreadHideFromDebugger 0x1000 0x1000
      (by decide) (by decide) (fun _ => rfl)).2 rfl rfl rfl⟩

/-! ## C2: the debug-port patch -/

/-- Memory after the debug-port return handler when every access succeeds: the
8 zero bytes at `P`, then the restore of the 4 bytes at a non-null `L`. -/
theorem returnProcess_debugPort_mem (ctx : MachineState) (w : World) (P L : Nat)
    (hc : w.tls .PROCESS_INFO_CLASS = some ProcessDebugPort)
    (hl : w.tls .PROCESS_INFO_DATA_LEN = some L)
    (hp : w.tls .PROCESS_INFO_DATA = some P) (hP : P ≠ 0) (hok : AllOk w) :
    (StpCallbackReturn .IdQueryInformationProcess ctx w).2.mem
      = if L ≠ 0 then writeLE (writeLE w.mem P 8 0) L 4 (readLE w.mem L 4)
        else writeLE w.mem P 8 0 := by
  have hr := access_allOk w 0 L 4 1 true hok
  have hv := read_val w L 4 1 hok
  simp only [StpCallbackReturn, returnQueryInformationProcess, pGetTlsData, hc, hl, hp]
  simp only [hP, ne_eq, not_false_eq_true, if_true]
  by_cases hL : L = 0
  · simp only [hL, not_true_eq_false, if_false]
    rw [write_mem _ _ _ _ _ hok]
  · simp only [hL, not_false_eq_true, if_true, hv]
    rw [write_mem _ _ _ _ _ (access_allOk _ _ _ _ _ _ hr), write_mem _ _ _ _ _ hr, read_mem]

/-- The bytes of a patched buffer `[P, P + n)` after the length restore at `L`:
a byte inside `[L, L + 4)` is back to its value before the handler, every other
byte holds the patch value. -/
theorem patched_byte (m : Mem) (P n v L x : Nat) (h1 : P ≤ x) (h2 : x < P + n) :
    (if L ≠ 0 then writeLE (writeLE m P n v) L 4 (readLE m L 4) else writeLE m P n v) x
      = if L ≠ 0 ∧ L ≤ x ∧ x < L + 4 then m x else byteOf v (x - P) := by
  by_cases hL : L = 0
  · have hn : ¬ (L ≠ 0 ∧ L ≤ x ∧ x < L + 4) := fun h => h.1 hL
    rw [if_neg (not_not.mpr hL), if_neg hn]
    exact writeLE_in m P n v x h1 h2
  · by_cases hx : L ≤ x ∧ x < L + 4
    · rw [if_pos hL, if_pos ⟨hL, hx⟩, writeLE_in _ L 4 _ x hx.1 hx.2,
        byteOf_readLE m 4 L (x - L) (by omega)]
      congr 1
      omega
    · have hx2 : ¬ (L ≠ 0 ∧ L ≤ x ∧ x < L + 4) := fun h => hx h.2
      rw [if_pos hL, if_neg hx2, writeLE_out _ L 4 _ x (by omega)]
      exact writeLE_in m P n v x h1 h2

theorem byteOf_zero (i : Nat) : byteOf 0 i = 0 := by
  apply Fin.ext
  simp [byteOf]

/-- C2 (as amended). Debug-port patch: for the return handler of
query-process-information with stored class ProcessDebugPort, every memory
state, every non-null buffer pointer `P` and every stored length pointer `L`,
with every memory-patch access succeeding: each of the 8 bytes at `P` is zero
after the handler, except a byte that also lies in the 4 bytes at a non-null
`L`, which holds the value it had before the handler (the length is restored
last). So with `L` null or `[L, L+4)` disjoint from `[P, P+8)` the 8 bytes at
`P` read 0, and a non-null `L` reads what it read before. -/
theorem debug_port_patch (ctx : MachineState) (w : World) (P L : Nat)
    (hc : w.tls .PROCESS_INFO_CLASS = some ProcessDebugPort)
    (hl : w.tls .PROCESS_INFO_DATA_LEN = some L)
    (hp : w.tls .PROCESS_INFO_DATA = some P) (hP : P ≠ 0) (hok : AllOk w) :
    (∀ i, i < 8 → (StpCallbackReturn .IdQueryInformationProcess ctx w).2.mem (P + i)
        = if L ≠ 0 ∧ L ≤ P + i ∧ P + i < L + 4 then w.mem (P + i) else 0) ∧
    ((L = 0 ∨ L + 4 ≤ P ∨ P + 8 ≤ L) →
      readLE (StpCallbackReturn .IdQueryInformationProcess ctx w).2.mem P 8 = 0) ∧
    (L ≠ 0 →
      readLE (StpCallbackReturn .IdQueryInformationProcess ctx w).2.mem L 4 = readLE w.mem L 4) := by
  have hm := returnProcess_debugPort_mem ctx w P L hc hl hp hP hok
  have hbytes : ∀ i, i < 8 → (StpCallbackReturn .IdQueryInformationProcess ctx w).2.mem (P + i)
        = if L ≠ 0 ∧ L ≤ P + i ∧ P + i < L + 4 then w.mem (P + i) else 0 := by
    intro i hi
    rw [hm, patched_byte w.mem P 8 0 L (P + i) (by omega) (by omega), byteOf_zero]
  refine ⟨hbytes, ?_, ?_⟩
  · intro hd
    have h0 : readLE (StpCallbackReturn .IdQueryInformationProcess ctx w).2.mem P 8 = 0 % 256 ^ 8 := by
      apply readLE_of_bytes
      intro k hk
      have hn : ¬ (L ≠ 0 ∧ L ≤ P + k ∧ P + k < L + 4) := by omega
      rw [hbytes k hk, if_neg hn, byteOf_zero]
    simpa using h0
  · intro hL
    rw [hm, if_pos hL, readLE_writeLE_same, Nat.mod_eq_of_lt (readLE_lt w.mem 4 L)]

/-- Witness of C2 (scenario A): P = 0x1000 and L = 0x2000; after the handler P reads 0
and L still reads 8. -/
theorem debug_port_patch_witness :
    readLE (StpCallbackReturn .IdQueryInformationProcess ctxZero worldScenarioA).2.mem 0x1000 8 = 0 ∧
    readLE (StpCallbackReturn .IdQueryInformationProcess ctxZero worldScenarioA).2.mem 0x2000 4 = 8 :=
  ⟨(debug_port_patch ctxZero worldScenarioA 0x1000 0x2000 rfl rfl rfl (by decide)
      (fun _ => rfl)).2.1 (by decide),
   ((debug_port_patch ctxZero worldScenarioA 0x1000 0x2000 rfl rfl rfl (by decide)
      (fun _ => rfl)).2.2 (by decide)).trans (by decide)⟩

/-- C2 as stated fails when the length pointer equals the buffer pointer: with
class ProcessDebugPort, P = L = 0x1000, every access succeeding and the length 8
in memory, the first byte at `P` is 8 after the handler, so the 8 bytes at `P`
are not all zero. -/
theorem debug_port_patch_counterexample :
    worldAliasedPort.tls .PROCESS_INFO_CLASS = some ProcessDebugPort ∧
    worldAliasedPort.tls .PROCESS_INFO_DATA = some 0x1000 ∧
    worldAliasedPort.tls .PROCESS_INFO_DATA_LEN = some 0x1000 ∧
    AllOk worldAliasedPort ∧
    (StpCallbackReturn .IdQueryInformationProcess ctxZero worldAliasedPort).2.mem 0x1000 = 8 ∧
    ¬ (∀ i, i < 8 →
      (StpCallbackReturn .IdQueryInformationProcess ctxZero worldAliasedPort).2.mem (0x1000 + i) = 0) := by
  refine ⟨rfl, rfl, rfl, fun _ => rfl, by decide, ?_⟩
  intro h
  have h0 := h 0 (by decide)
  revert h0
  decide

/-! ## C3: the hide-from-debugger query patch -/

/-- Memory after the hide-from-debugger return handler when every access
succeeds: the byte TRUE at `P`, then the restore of the 4 bytes at a non-null
`L`. -/
theorem returnThread_hide_mem (ctx : MachineState) (w : World) (P L : Nat)
    (hc : w.tls .THREAD_INFO_CLASS = some ThreadHideFromDebugger)
    (hl : w.tls .THREAD_INFO_DATA_LEN = some L)
    (hp : w.tls .THREAD_INFO_DATA = some P) (hP : P ≠ 0) (hok : AllOk w) :
    (StpCallbackReturn .IdQueryInformationThread ctx w).2.mem
      = if L ≠ 0 then writeLE (writeLE w.mem P 1 TRUE) L 4 (readLE w.mem L 4)
        else writeLE w.mem P 1 TRUE := by
  have hr := access_allOk w 0 L 4 1 true hok
  have hv := read_val w L 4 1 hok
  have hne : ¬ (ThreadHideFromDebugger = ThreadWow64Context) := by decide
  simp only [StpCallbackReturn, returnQueryInformationThread, pGetTlsData, hc, hl, hp]
  simp only [hP, hne, ne_eq, not_false_eq_true, if_true, if_false]
  by_cases hL : L = 0
  · simp only [hL, not_true_eq_false, if_false]
    rw [write_mem _ _ _ _ _ hok]
  · simp only [hL, not_false_eq_true, if_true, hv]
    rw [write_mem _ _ _ _ _ (access_allOk _ _ _ _ _ _ hr), write_mem _ _ _ _ _ hr, read_mem]

/-- C3 (as amended). Hide-from-debugger query patch: for the return handler of
query-thread-information with stored class ThreadHideFromDebugger, every memory
state, every non-null buffer pointer `P` and every stored length pointer `L`,
with every memory-patch access succeeding: the byte at `P` is TRUE (1) after the
handler when `L` is null or `P` is outside the 4 bytes at `L`; when `P` lies in
the 4 bytes at a non-null `L` (as for `L = P`) the byte at `P` holds the value it
had before the handler. -/
theorem hide_from_debugger_patch (ctx : MachineState) (w : World) (P L : Nat)
    (hc : w.tls .THREAD_INFO_CLASS = some ThreadHideFromDebugger)
    (hl : w.tls .THREAD_INFO_DATA_LEN = some L)
    (hp : w.tls .THREAD_INFO_DATA = some P) (hP : P ≠ 0) (hok : AllOk w) :
    (StpCallbackReturn .IdQueryInformationThread ctx w).2.mem P
      = if L ≠ 0 ∧ L ≤ P ∧ P < L + 4 then w.mem P else 1 := by
  rw [returnThread_hide_mem ctx w P L hc hl hp hP hok,
    patched_byte w.mem P 1 TRUE L P (Nat.le_refl P) (by omega), Nat.sub_self]
  rfl

/-- Witness of C3: P = 0x1000 and L = 0x2000; the byte at P is TRUE after the handler. -/
theorem hide_from_debugger_patch_witness :
    (StpCallbackReturn .IdQueryInformationThread ctxZero worldHide).2.mem 0x1000 = 1 :=
  (hide_from_debugger_patch ctxZero worldHide 0x1000 0x2000 rfl rfl rfl (by decide)
    (fun _ => rfl)).trans (by decide)

/-- C3 as stated fails when the length pointer equals the buffer pointer: with
class ThreadHideFromDebugger, P = L = 0x1000, every access succeeding and the
byte 8 at `P` before the handler, the byte at `P` is 8 after it, not TRUE. -/
theorem hide_from_debugger_patch_counterexample :
    worldAliasedHide.tls .THREAD_INFO_CLASS = some ThreadHideFromDebugger ∧
    worldAliasedHide.tls .THREAD_INFO_DATA = some 0x1000 ∧
    worldAliasedHide.tls .THREAD_INFO_DATA_LEN = some 0x1000 ∧
    AllOk worldAliasedHide ∧
    (StpCallbackReturn .IdQueryInformationThread ctxZero worldAliasedHide).2.mem 0x1000 = 8 ∧
    (StpCallbackReturn .IdQueryInformationThread ctxZero worldAliasedHide).2.mem 0x1000 ≠ 1 := by
  refine ⟨rfl, rfl, rfl, fun _ => rfl, by decide, by decide⟩

/-! ## C4: no patch without the slots or with a null buffer -/

/-- C4. Null-buffer no-op: for the return handler of query-process-information
and of query-thread-information, if one of the three required slots is not found
or the stored buffer pointer is null, then whatever the other slots hold the
handler returns the machine state and the world as they were: no event is
logged (no call to the memory-patch service), memory is not written and the
return value is unchanged. -/
theorem null_buffer_noop (ctx : MachineState) (w : World) :
    ((w.tls .PROCESS_INFO_CLASS = none ∨ w.tls .PROCESS_INFO_DATA_LEN = none ∨
        w.tls .PROCESS_INFO_DATA = none ∨ w.tls .PROCESS_INFO_DATA = some 0) →
      StpCallbackReturn .IdQueryInformationProcess ctx w = (ctx, w)) ∧
    ((w.tls .THREAD_INFO_CLASS = none ∨ w.tls .THREAD_INFO_DATA_LEN = none ∨
        w.tls .THREAD_INFO_DATA = none ∨ w.tls .THREAD_INFO_DATA = some 0) →
      StpCallbackReturn .IdQueryInformationThread ctx w = (ctx, w)) := by
  constructor
  · intro h
    simp only [StpCallbackReturn, returnQueryInformationProcess, pGetTlsData]
    rcases h with h | h | h | h
    · rw [h]
    · rw [h]; cases w.tls .PROCESS_INFO_CLASS <;> rfl
    · rw [h]
      cases w.tls .PROCESS_INFO_CLASS <;> cases w.tls .PROCESS_INFO_DATA_LEN <;> rfl
    · rw [h]
      cases w.tls .PROCESS_INFO_CLASS <;> cases w.tls .PROCESS_INFO_DATA_LEN <;> simp
  · intro h
    simp only [StpCallbackReturn, returnQueryInformationThread, pGetTlsData]
    rcases h with h | h | h | h
    · rw [h]
    · rw [h]; cases w.tls .THREAD_INFO_CLASS <;> rfl
    · rw [h]
      cases w.tls .THREAD_INFO_CLASS <;> cases w.tls .THREAD_INFO_DATA_LEN <;> rfl
    · rw [h]
      cases w.tls .THREAD_INFO_CLASS <;> cases w.tls .THREAD_INFO_DATA_LEN <;> simp

/-- Witness of C4: a null buffer pointer with a non-null length pointer (process
query) and a length-pointer slot that was never written (thread query). -/
theorem null_buffer_noop_witness :
    StpCallbackReturn .IdQueryInformationProcess ctxZero worldNullBuffer
      = (ctxZero, worldNullBuffer) ∧
    StpCallbackReturn .IdQueryInformationThread ctxZero worldMissingSlot
      = (ctxZero, worldMissingSlot) :=
  ⟨(null_buffer_noop ctxZero worldNullBuffer).1 (Or.inr (Or.inr (Or.inr rfl))),
   (null_buffer_noop ctxZero worldMissingSlot).2 (Or.inr (Or.inl rfl))⟩

/-! ## C5: get-thread-context with a null context pointer -/

/-- C5 (the code at the failing input). Entry of get-thread-context with a null
context pointer (argument 1 is 0) stores 0 in the slot, and the return handler
that follows issues ten 8-byte writes through the memory-patch service, at the
addresses 0 + offset of Dr0, Dr1, Dr2, Dr3, Dr6, Dr7 and of the four
last-branch / last-exception fields: the slot value is not tested against
null. -/
theorem getContextThread_null_pointer_writes :
    ctxZero.read_argument 1 = 0 ∧
    (StpCallbackEntry kernelUser .IdGetContextThread ctxZero worldFaulting).2.tls
      .CONTEXT_THREAD_DATA = some 0 ∧
    (StpCallbackReturn .IdGetContextThread ctxZero
      (StpCallbackEntry kernelUser .IdGetContextThread ctxZero worldFaulting).2).2.log
      = [Event.access 0x48 8 1 false 0 false 0, Event.access 0x50 8 1 false 0 false 0,
         Event.access 0x58 8 1 false 0 false 0, Event.access 0x60 8 1 false 0 false 0,
         Event.access 0x68 8 1 false 0 false 0, Event.access 0x70 8 1 false 0 false 0,
         Event.access 0x4b0 8 1 false 0 false 0, Event.access 0x4b8 8 1 false 0 false 0,
         Event.access 0x4c0 8 1 false 0 false 0, Event.access 0x4c8 8 1 false 0 false 0] := by
  refine ⟨rfl, rfl, ?_⟩
  decide

/-! ## C6: Substitute A -/

/-- C6 (as amended). Scenario C for Substitute A: the entry handler of
set-thread-information with class ThreadHideFromDebugger redirects the call to
NoopNtSetInformationThread; NoopNtSetInformationThread called with class
ThreadHideFromDebugger, a thread handle that ObReferenceObjectByHandle accepts
and ThreadInformationLength = 0 returns STATUS_SUCCESS, for every previous mode;
with a non-zero ThreadInformationLength (such as 4) and a readable buffer, or a
kernel-mode caller, it returns STATUS_INFO_LENGTH_MISMATCH. -/
theorem substituteA_scenario (DTRACE_IRQL : Nat) (k : Kernel) (ctx : MachineState) (w : World)
    (ThreadHandle ThreadInformation : Nat) :
    (ctx.read_argument 1 = ThreadHideFromDebugger →
      (StpCallbackEntry k .IdSetInformationThread ctx w).1.redirect
        = some Substitute.NoopNtSetInformationThread) ∧
    (NT_SUCCESS (k.ObReferenceObjectByHandle ThreadHandle THREAD_SET_INFORMATION
        k.ExGetPreviousMode).status = true →
      (NoopNtSetInformationThread DTRACE_IRQL k w ThreadHandle ThreadHideFromDebugger
        ThreadInformation 0).1 = STATUS_SUCCESS) ∧
    (∀ len, len ≠ 0 → (k.ExGetPreviousMode = KernelMode ∨ w.outcomes 0 = true) →
      (NoopNtSetInformationThread DTRACE_IRQL k w ThreadHandle ThreadHideFromDebugger
        ThreadInformation len).1 = STATUS_INFO_LENGTH_MISMATCH) := by
  refine ⟨?_, ?_, ?_⟩
  · intro h
    simp [StpCallbackEntry, h, MachineState.redirect_syscall]
  · intro h
    simp [NoopNtSetInformationThread, ObReferenceObjectByHandle, h]
  · intro len hlen h
    rcases h with h | h
    · simp [NoopNtSetInformationThread, h, hlen]
    · by_cases hm : k.ExGetPreviousMode = KernelMode
      · simp [NoopNtSetInformationThread, hm, hlen]
      · simp [NoopNtSetInformationThread, hm, hlen, pTraceAccessMemory, KfRaiseIrql, h]

/-- Witness of C6: a user-mode caller, handle 0x44; length 0 gives STATUS_SUCCESS,
length 4 with a readable buffer gives STATUS_INFO_LENGTH_MISMATCH. -/
theorem substituteA_scenario_witness :
    (StpCallbackEntry kernelUser .IdSetInformationThread
      { ctxZero with args := fun _ => ThreadHideFromDebugger } worldIdle).1.redirect
        = some Substitute.NoopNtSetInformationThread ∧
    (NoopNtSetInformationThread 15 kernelUser worldIdle 0x44 ThreadHideFromDebugger 0 0).1
      = STATUS_SUCCESS ∧
    (NoopNtSetInformationThread 15 kernelUser worldIdle 0x44 ThreadHideFromDebugger 0x3000 4).1
      = STATUS_INFO_LENGTH_MISMATCH :=
  ⟨(substituteA_scenario 15 kernelUser { ctxZero with args := fun _ => ThreadHideFromDebugger }
      worldIdle 0x44 0).1 rfl,
   (substituteA_scenario 15 kernelUser ctxZero worldIdle 0x44 0).2.1 (by decide),
   (substituteA_scenario 15 kernelUser ctxZero worldIdle 0x44 0x3000).2.2 4 (by decide)
      (Or.inr rfl)⟩

/-- C6 as stated fails: with class ThreadHideFromDebugger, a handle that
ObReferenceObjectByHandle accepts, a readable buffer and ThreadInformationLength
= 4, NoopNtSetInformationThread returns STATUS_INFO_LENGTH_MISMATCH, not
STATUS_SUCCESS, for a user-mode and for a kernel-mode caller. -/
theorem substituteA_scenario_counterexample :
    (NoopNtSetInformationThread 15 kernelUser worldIdle 0x44 ThreadHideFromDebugger 0x3000 4).1
      = STATUS_INFO_LENGTH_MISMATCH ∧
    (NoopNtSetInformationThread 15 kernelKernelMode worldIdle 0x44 ThreadHideFromDebugger
      0x3000 4).1 = STATUS_INFO_LENGTH_MISMATCH ∧
    STATUS_INFO_LENGTH_MISMATCH ≠ STATUS_SUCCESS := by
  refine ⟨by decide, by decide, by decide⟩

/-! ## C7: handle-close of an invalid handle -/

/-- C7. Scenario B: for every handle for which the auditing query returns
STATUS_INVALID_HANDLE, the entry handler of handle-close redirects the call to
the noop substitute and logs the auditing query only (ObCloseHandle is not
called); the return handler of handle-close that follows, in any world whose
slot store is the one entry left and for any machine state (whatever its return
value), writes STATUS_INVALID_HANDLE, converted to the 64-bit register, as the
return value; its low 32 bits read as STATUS_INVALID_HANDLE. -/
theorem close_invalid_handle (k : Kernel) (ctx : MachineState) (w : World)
    (h : k.ObQueryObjectAuditingByHandle (ctx.read_argument 0) = STATUS_INVALID_HANDLE) :
    (StpCallbackEntry k .IdClose ctx w).1.redirect = some Substitute.noop ∧
    (StpCallbackEntry k .IdClose ctx w).2.log
      = w.log ++ [Event.ObQueryObjectAuditingByHandle (ctx.read_argument 0)] ∧
    (∀ (ctx2 : MachineState) (w2 : World), w2.tls = (StpCallbackEntry k .IdClose ctx w).2.tls →
      (StpCallbackReturn .IdClose ctx2 w2).1.retval = u64 STATUS_INVALID_HANDLE ∧
      asNTSTATUS (StpCallbackReturn .IdClose ctx2 w2).1.retval = STATUS_INVALID_HANDLE) := by
  have he : StpCallbackEntry k .IdClose ctx w
      = (ctx.redirect_syscall .noop,
         pSetTlsData (pSetTlsData (ObQueryObjectAuditingByHandle k w (ctx.read_argument 0)).2
           (u64 STATUS_INVALID_HANDLE) .CLOSE_RETVAL) TRUE .CLOSE_OVERWRITE_RETVAL) := by
    simp [StpCallbackEntry, entryClose, ObQueryObjectAuditingByHandle, h]
  rw [he]
  refine ⟨rfl, rfl, ?_⟩
  intro ctx2 w2 htls
  have h1 : w2.tls .CLOSE_OVERWRITE_RETVAL = some TRUE := by rw [htls]; rfl
  have h2 : w2.tls .CLOSE_RETVAL = some (u64 STATUS_INVALID_HANDLE) := by rw [htls]; rfl
  have hr : (StpCallbackReturn .IdClose ctx2 w2).1.retval = u64 STATUS_INVALID_HANDLE := by
    simp [StpCallbackReturn, returnClose, pGetTlsData, h1, h2, TRUE,
      MachineState.write_return_value]
  refine ⟨hr, ?_⟩
  rw [hr]
  decide

/-- Witness of C7: handle 0 reported invalid; the return value 0x1234 is replaced
by 0xFFFFFFFFC0000008. -/
theorem close_invalid_handle_witness :
    (StpCallbackEntry kernelInvalidHandle .IdClose ctxZero worldIdle).1.redirect
      = some Substitute.noop ∧
    (StpCallbackEntry kernelInvalidHandle .IdClose ctxZero worldIdle).2.log
      = [Event.ObQueryObjectAuditingByHandle 0] ∧
    (StpCallbackReturn .IdClose { ctxZero with retval := 0x1234 }
      (StpCallbackEntry kernelInvalidHandle .IdClose ctxZero worldIdle).2).1.retval
      = 0xFFFFFFFFC0000008 :=
  ⟨(close_invalid_handle kernelInvalidHandle ctxZero worldIdle rfl).1,
   (close_invalid_handle kernelInvalidHandle ctxZero worldIdle rfl).2.1,
   ((close_invalid_handle kernelInvalidHandle ctxZero worldIdle rfl).2.2
      { ctxZero with retval := 0x1234 } _ rfl).1.trans (by decide)⟩

/-! ## C8: the handle-close decision -/

/-- The value assigned to the one-byte `GlobalFlgExceptions` is zero whatever
the global flags are: bit 22 does not survive the conversion to `BOOLEAN`. -/
theorem globalFlgExceptions_zero (flags : Nat) :
    (flags &&& FLG_ENABLE_CLOSE_EXCEPTIONS) % 256 = 0 := by
  have h1 : FLG_ENABLE_CLOSE_EXCEPTIONS = 2 ^ 22 := by decide
  have h2 : (256 : Nat) = 2 ^ 8 := by norm_num
  rw [h1, h2]
  apply Nat.eq_of_testBit_eq
  intro i
  simp only [Nat.testBit_mod_two_pow, Nat.testBit_and, Nat.testBit_two_pow, Nat.zero_testBit]
  by_cases hi : i < 8
  · have hne : ¬ (22 = i) := by omega
    simp [hne]
  · simp [hi]

/-- What the entry handler of handle-close does for a process that is not being
debugged and a handle not reported invalid, whatever the global flags: it makes
no attribute lookup, calls ObCloseHandle once with the previous mode and stores
that status. -/
theorem entryClose_not_debugged (k : Kernel) (ctx : MachineState) (w : World)
    (h1 : k.ObQueryObjectAuditingByHandle (ctx.read_argument 0) ≠ STATUS_INVALID_HANDLE)
    (h2 : k.PsGetProcessDebugPort = 0) :
    (StpCallbackEntry k .IdClose ctx w).2.log
      = w.log ++ [Event.ObQueryObjectAuditingByHandle (ctx.read_argument 0),
                  Event.ObCloseHandle (ctx.read_argument 0) k.ExGetPreviousMode] ∧
    (StpCallbackEntry k .IdClose ctx w).2.tls .CLOSE_RETVAL
      = some (u64 (k.ObCloseHandle (ctx.read_argument 0) k.ExGetPreviousMode)) := by
  have hz := globalFlgExceptions_zero k.RtlGetNtGlobalFlags
  simp [StpCallbackEntry, entryClose, ObQueryObjectAuditingByHandle, h1, h2, hz,
    ObCloseHandle, pSetTlsData]

/-- What the entry handler of handle-close does for a process that is being
debugged and a handle not reported invalid: one attribute lookup; with the
lookup successful and OBJ_PROTECT_CLOSE present it stores
STATUS_HANDLE_NOT_CLOSABLE and does not call ObCloseHandle, otherwise it calls
ObCloseHandle once with the previous mode and stores that status. In both cases
the overwrite flag is set and the call is redirected to noop. -/
theorem entryClose_debugged (k : Kernel) (ctx : MachineState) (w : World)
    (h1 : k.ObQueryObjectAuditingByHandle (ctx.read_argument 0) ≠ STATUS_INVALID_HANDLE)
    (h2 : k.PsGetProcessDebugPort ≠ 0) :
    (StpCallbackEntry k .IdClose ctx w).1.redirect = some Substitute.noop ∧
    (StpCallbackEntry k .IdClose ctx w).2.tls .CLOSE_OVERWRITE_RETVAL = some TRUE ∧
    (StpCallbackEntry k .IdClose ctx w).2.tls .CLOSE_RETVAL
      = (if NT_SUCCESS (k.ObReferenceObjectByHandle (ctx.read_argument 0) 0
              k.ExGetPreviousMode).status = true ∧
            (k.ObReferenceObjectByHandle (ctx.read_argument 0) 0
              k.ExGetPreviousMode).HandleAttributes &&& OBJ_PROTECT_CLOSE ≠ 0
         then some (u64 STATUS_HANDLE_NOT_CLOSABLE)
         else some (u64 (k.ObCloseHandle (ctx.read_argument 0) k.ExGetPreviousMode))) ∧
    (Event.ObCloseHandle (ctx.read_argument 0) k.ExGetPreviousMode
        ∈ ((StpCallbackEntry k .IdClose ctx w).2.log.drop w.log.length) ↔
      ¬ (NT_SUCCESS (k.ObReferenceObjectByHandle (ctx.read_argument 0) 0
              k.ExGetPreviousMode).status = true ∧
            (k.ObReferenceObjectByHandle (ctx.read_argument 0) 0
              k.ExGetPreviousMode).HandleAttributes &&& OBJ_PROTECT_CLOSE ≠ 0)) := by
  simp only [StpCallbackEntry, entryClose, ObQueryObjectAuditingByHandle, h1, h2,
    ObReferenceObjectByHandle, ObDereferenceObject, ObCloseHandle, ne_eq, not_false_eq_true,
    decide_True, true_or, true_and, if_true]
  split_ifs <;> simp_all [pSetTlsData, MachineState.redirect_syscall]

/-- C8 (the code at the failing input). Process not debugged, global flag
FLG_ENABLE_CLOSE_EXCEPTIONS set, handle 0x44 valid and protected from close: the
entry handler of handle-close makes no attribute lookup and calls ObCloseHandle
(handle 0x44, user mode); the status it stores is the one ObCloseHandle
returned. -/
theorem close_global_flag_ignored :
    kernelCloseExceptions.PsGetProcessDebugPort = 0 ∧
    kernelCloseExceptions.RtlGetNtGlobalFlags &&& FLG_ENABLE_CLOSE_EXCEPTIONS ≠ 0 ∧
    kernelCloseExceptions.ObQueryObjectAuditingByHandle 0x44 ≠ STATUS_INVALID_HANDLE ∧
    NT_SUCCESS (kernelCloseExceptions.ObReferenceObjectByHandle 0x44 0 UserMode).status = true ∧
    (kernelCloseExceptions.ObReferenceObjectByHandle 0x44 0 UserMode).HandleAttributes
      &&& OBJ_PROTECT_CLOSE ≠ 0 ∧
    (StpCallbackEntry kernelCloseExceptions .IdClose ctxHandle worldIdle).2.log
      = [Event.ObQueryObjectAuditingByHandle 0x44, Event.ObCloseHandle 0x44 UserMode] ∧
    (StpCallbackEntry kernelCloseExceptions .IdClose ctxHandle worldIdle).2.tls .CLOSE_RETVAL
      = some (u64 (kernelCloseExceptions.ObCloseHandle 0x44 UserMode)) := by
  refine ⟨rfl, by decide, by decide, by decide, by decide, by decide, by decide⟩

/-! ## C9: the debug-object-handle patch -/

/-- C10. Priority restore in Substitute A: for every argument tuple, every
previous mode and every outcome of the read probe, the interrupt level when
NoopNtSetInformationThread returns is the level when it was called. For a
caller that is not kernel mode and a non-zero length the calls made are exactly:
raise to DTRACE_IRQL, the one-byte read probe (made at DTRACE_IRQL), lower to
the level at the call; otherwise the level is never raised and the only call
that can be made is the handle reference, at the level of the call. When the
probe fails the function returns STATUS_ACCESS_VIOLATION, the lowering having
been done. -/
theorem irql_restored (DTRACE_IRQL : Nat) (k : Kernel) (w : World)
    (ThreadHandle ThreadInformationClass ThreadInformation ThreadInformationLength : Nat) :
    (NoopNtSetInformationThread DTRACE_IRQL k w ThreadHandle ThreadInformationClass
      ThreadInformation ThreadInformationLength).2.irql = w.irql ∧
    (NoopNtSetInformationThread DTRACE_IRQL k w ThreadHandle ThreadInformationClass
      ThreadInformation ThreadInformationLength).2.log
      = w.log ++
        (if k.ExGetPreviousMode ≠ KernelMode ∧ ThreadInformationLength ≠ 0 then
           [Event.KfRaiseIrql DTRACE_IRQL w.irql,
            Event.access ThreadInformation 1 1 true
              (if w.outcomes 0 = true then readLE w.mem ThreadInformation 1 else 0)
              (w.outcomes 0) DTRACE_IRQL,
            Event.KeLowerIrql w.irql]
         else if ThreadInformationClass = ThreadHideFromDebugger ∧ ThreadInformationLength = 0 then
           [Event.ObReferenceObjectByHandle ThreadHandle THREAD_SET_INFORMATION
              k.ExGetPreviousMode w.irql]
         else []) ∧
    (k.ExGetPreviousMode ≠ KernelMode ∧ ThreadInformationLength ≠ 0 ∧ w.outcomes 0 = false →
      (NoopNtSetInformationThread DTRACE_IRQL k w ThreadHandle ThreadInformationClass
        ThreadInformation ThreadInformationLength).1 = STATUS_ACCESS_VIOLATION) := by
  by_cases hm : k.ExGetPreviousMode = KernelMode
  · by_cases hc : ThreadInformationClass = ThreadHideFromDebugger
    · by_cases hlen : ThreadInformationLength = 0
      · cases hs : NT_SUCCESS (k.ObReferenceObjectByHandle ThreadHandle THREAD_SET_INFORMATION
            KernelMode).status <;>
          simp [NoopNtSetInformationThread, hm, hc, hlen, ObReferenceObjectByHandle, hs]
      · simp [NoopNtSetInformationThread, hm, hc, hlen]
    · simp [NoopNtSetInformationThread, hm, hc]
  · by_cases hlen : ThreadInformationLength = 0
    · by_cases hc : ThreadInformationClass = ThreadHideFromDebugger
      · cases hs : NT_SUCCESS (k.ObReferenceObjectByHandle ThreadHandle THREAD_SET_INFORMATION
            k.ExGetPreviousMode).status <;>
          simp [NoopNtSetInformationThread, hm, hc, hlen, ObReferenceObjectByHandle, hs]
      · simp [NoopNtSetInformationThread, hm, hc, hlen]
    · by_cases hc : ThreadInformationClass = ThreadHideFromDebugger
      · cases h0 : w.outcomes 0 <;>
          simp [NoopNtSetInformationThread, hm, hc, hlen, pTraceAccessMemory, KfRaiseIrql,
            KeLowerIrql, h0]
      · cases h0 : w.outcomes 0 <;>
          simp [NoopNtSetInformationThread, hm, hc, hlen, pTraceAccessMemory, KfRaiseIrql,
            KeLowerIrql, h0]

/-- Witness of C10: a user-mode caller at level 2 whose probe fails; the level is 2
again on return and the status is STATUS_ACCESS_VIOLATION. -/
theorem irql_restored_witness :
    (NoopNtSetInformationThread 15 kernelUser worldProbeFails 0x44 ThreadHideFromDebugger
      0x3000 4).2.irql = 2 ∧
    (NoopNtSetInformationThread 15 kernelUser worldProbeFails 0x44 ThreadHideFromDebugger
      0x3000 4).2.log
      = [Event.KfRaiseIrql 15 2, Event.access 0x3000 1 1 true 0 false 15, Event.KeLowerIrql 2] ∧
    (NoopNtSetInformationThread 15 kernelUser worldProbeFails 0x44 ThreadHideFromDebugger
      0x3000 4).1 = STATUS_ACCESS_VIOLATION :=
  ⟨(irql_restored 15 kernelUser worldProbeFails 0x44 ThreadHideFromDebugger 0x3000 4).1,
   (irql_restored 15 kernelUser worldProbeFails 0x44 ThreadHideFromDebugger 0x3000 4).2.1,
   (irql_restored 15 kernelUser worldProbeFails 0x44 ThreadHideFromDebugger 0x3000 4).2.2
     ⟨by decide, by decide, rfl⟩⟩

/-! ## C11: frame of the Wow64-context patch -/

theorem add64_small (a b : Nat) (h : a + b < 18446744073709551616) : add64 a b = a + b := by
  simp [add64, Nat.mod_eq_of_lt h]

/-- Memory after the Wow64-context return handler with a null length pointer
when every access succeeds and the structure does not reach the end of the
address space: the six 8-byte zero writes at offsets 4, 8, 12, 16, 20, 24 zero
the 28 bytes `P + 4 .. P + 31`; every other byte is unchanged. -/
theorem returnThread_wow64_mem (ctx : MachineState) (w : World) (P : Nat)
    (hc : w.tls .THREAD_INFO_CLASS = some ThreadWow64Context)
    (hl : w.tls .THREAD_INFO_DATA_LEN = some 0)
    (hp : w.tls .THREAD_INFO_DATA = some P) (hP : P ≠ 0)
    (hb : P + 32 ≤ 18446744073709551616) (hok : AllOk w) (x : Nat) :
    (StpCallbackReturn .IdQueryInformationThread ctx w).2.mem x
      = if P + 4 ≤ x ∧ x < P + 32 then 0 else w.mem x := by
  have h1 := access_allOk w 0 (add64 P WOW64_CONTEXT_Dr0) 8 1 false hok
  have h2 := access_allOk _ 0 (add64 P WOW64_CONTEXT_Dr1) 8 1 false h1
  have h3 := access_allOk _ 0 (add64 P WOW64_CONTEXT_Dr2) 8 1 false h2
  have h4 := access_allOk _ 0 (add64 P WOW64_CONTEXT_Dr3) 8 1 false h3
  have h5 := access_allOk _ 0 (add64 P WOW64_CONTEXT_Dr6) 8 1 false h4
  simp only [StpCallbackReturn, returnQueryInformationThread, pGetTlsData, hc, hl, hp]
  simp only [hP, ne_eq, not_false_eq_true, not_true_eq_false, if_true, if_false]
  rw [write_mem _ _ _ _ _ h5, write_mem _ _ _ _ _ h4, write_mem _ _ _ _ _ h3,
    write_mem _ _ _ _ _ h2, write_mem _ _ _ _ _ h1, write_mem _ _ _ _ _ hok]
  rw [add64_small P WOW64_CONTEXT_Dr0 (by simp only [WOW64_CONTEXT_Dr0]; omega),
    add64_small P WOW64_CONTEXT_Dr1 (by simp only [WOW64_CONTEXT_Dr1]; omega),
    add64_small P WOW64_CONTEXT_Dr2 (by simp only [WOW64_CONTEXT_Dr2]; omega),
    add64_small P WOW64_CONTEXT_Dr3 (by simp only [WOW64_CONTEXT_Dr3]; omega),
    add64_small P WOW64_CONTEXT_Dr6 (by simp only [WOW64_CONTEXT_Dr6]; omega),
    add64_small P WOW64_CONTEXT_Dr7 (by simp only [WOW64_CONTEXT_Dr7]; omega)]
  simp only [writeLE, byteOf_zero, WOW64_CONTEXT_Dr0, WOW64_CONTEXT_Dr1, WOW64_CONTEXT_Dr2,
    WOW64_CONTEXT_Dr3, WOW64_CONTEXT_Dr6, WOW64_CONTEXT_Dr7]
  split_ifs <;> first | rfl | omega

/-- C11 (the code at the failing input). Class ThreadWow64Context, P = 0x1000,
null length pointer, every access succeeding, FloatSave.ControlWord (the 4 bytes
at P + 28) equal to 0x027F after the real call: the handler issues six writes of
8 bytes each, the last one at P + 24, and the 4 bytes at P + 28 read 0 after the
handler. -/
theorem wow64_patch_clobbers_control_word :
    worldWow64.tls .THREAD_INFO_CLASS = some ThreadWow64Context ∧
    worldWow64.tls .THREAD_INFO_DATA = some 0x1000 ∧
    worldWow64.tls .THREAD_INFO_DATA_LEN = some 0 ∧
    AllOk worldWow64 ∧
    readLE worldWow64.mem (0x1000 + 28) 4 = 0x027F ∧
    readLE (StpCallbackReturn .IdQueryInformationThread ctxZero worldWow64).2.mem
      (0x1000 + 28) 4 = 0 ∧
    (StpCallbackReturn .IdQueryInformationThread ctxZero worldWow64).2.log
      = [Event.access 0x1004 8 1 false 0 true 0, Event.access 0x1008 8 1 false 0 true 0,
         Event.access 0x100c 8 1 false 0 true 0, Event.access 0x1010 8 1 false 0 true 0,
         Event.access 0x1014 8 1 false 0 true 0, Event.access 0x1018 8 1 false 0 true 0] := by
  refine ⟨rfl, rfl, rfl, fun _ => rfl, by decide, by decide, by decide⟩

end STrace
